import Mathlib

/-!
Shallow embedding of the trial-lifecycle core of the AutoRecSys tuner
(`autorecsys/searcher/core/tuner.py`): the `BaseTuner` search loop, its
trial-end handler, construction-time validation and filesystem side effects,
and the `PipeTuner` trial execution path.  External collaborators that are
not part of the tuner module (the Oracle algorithm, the trial `Stateful`
base, `create_directory`, `set_tunable_hps`, the recommender model) are
modelled at their interface, as consumed by `tuner.py`.
-/

/-- Trial status enumeration from `autorecsys.searcher.core.trial.TrialStatus`
(module not under `src/`; the four states named by the spec §4.3 and used by
`tuner.py`: `RUNNING`, `IDLE`, `STOPPED`, `COMPLETED`). -/
inductive TrialStatus where
  | RUNNING
  | IDLE
  | STOPPED
  | COMPLETED
deriving DecidableEq, Repr

/-- Hyperparameters of one trial: an ordered mapping of name to concrete
sampled value (spec §3; values modelled as integers). -/
abbrev HyperParameters := List (String × Int)

/-- A trial record as consumed by `tuner.py`: identity, sampled
hyperparameters and status (`autorecsys.searcher.core.trial.Trial`, module
not under `src/`; fields are exactly those `tuner.py` reads). -/
structure Trial where
  trial_id : Nat
  hyperparameters : HyperParameters
  status : TrialStatus
deriving DecidableEq, Repr

/-- Observable collaborator calls made by `BaseTuner.on_trial_end`
(tuner.py lines 114-121), in the order the tuner issues them. -/
inductive TunerEvent where
  | end_trial (trial_id : Nat) (status : TrialStatus)
  | save_weights (trial_id : Nat)
  | update_space (hp : HyperParameters)
  | display_trial_end (trial_id : Nat)
  | save_state
deriving DecidableEq, Repr

/-- Trace of `self.oracle.end_trial(trial_id, status)` (tuner.py line 116). -/
def oracle_end_trial_call (trial_id : Nat) (status : TrialStatus) : List TunerEvent :=
  [TunerEvent.end_trial trial_id status]

/-- Trace of `self.save_weights(trial, model)` (tuner.py line 118). -/
def save_weights_call (trial_id : Nat) : List TunerEvent :=
  [TunerEvent.save_weights trial_id]

/-- Trace of `self.oracle.update_space(trial.hyperparameters)` (line 119). -/
def oracle_update_space_call (hp : HyperParameters) : List TunerEvent :=
  [TunerEvent.update_space hp]

/-- Trace of `self._display.on_trial_end(trial)` (tuner.py line 120). -/
def display_on_trial_end_call (trial_id : Nat) : List TunerEvent :=
  [TunerEvent.display_trial_end trial_id]

/-- Trace of `self.save()` (tuner.py line 121). -/
def save_call : List TunerEvent :=
  [TunerEvent.save_state]

/-- Embedding of `BaseTuner.on_trial_end` (tuner.py lines 114-121): the trace of
collaborator calls it performs, concatenated in source order. -/
def on_trial_end (trial : Trial) : List TunerEvent :=
  oracle_end_trial_call trial.trial_id TrialStatus.COMPLETED
    ++ save_weights_call trial.trial_id
    ++ oracle_update_space_call trial.hyperparameters
    ++ display_on_trial_end_call trial.trial_id
    ++ save_call

/-- Embedding of `BaseTuner.search` (tuner.py lines 98-109).  `trials k` is the trial the
Oracle's k-th `create_trial` call returns.  The loop is modelled with fuel
(`none` = not yet terminated within `fuel` iterations); a terminated run
returns the list of trials that were dispatched, each to `run_trial` and
then `on_trial_end`, in dispatch order.  A `STOPPED` trial breaks the loop;
an `IDLE` trial re-polls and contributes nothing; any other trial is
dispatched. -/
def searchLoop (trials : Nat → Trial) (k : Nat) : Nat → Option (List Trial)
  | 0 => none
  | fuel + 1 =>
    let trial := trials k
    if trial.status = TrialStatus.STOPPED then
      some []
    else if trial.status = TrialStatus.IDLE then
      searchLoop trials (k + 1) fuel
    else
      match searchLoop trials (k + 1) fuel with
      | none => none
      | some rest => some (trial :: rest)

/- ---------------------------------------------------------------------
PipeTuner trial execution (tuner.py lines 229-237).
--------------------------------------------------------------------- -/

/-- One entry of the model configuration: either an already-fixed value or a
tunable placeholder with a default. -/
inductive CfgEntry where
  | fixed (v : Int)
  | tunable (hname : String) (default : Int)
deriving DecidableEq, Repr

/-- The `self.config["ModelOption"]` value: the parameterized model configuration. -/
abbrev ModelConfig := List (String × CfgEntry)

/-- Modelled from the spec: `set_tunable_hps` from `autorecsys.utils.config`
(module not under `src/`).  The spec §4.4 says `run_trial` "materializes a
concrete model configuration by substituting tunable placeholders with
sampled values"; placeholders with no sampled value are left as they are. -/
def set_tunable_hps (cfg : ModelConfig) (hp : HyperParameters) : ModelConfig :=
  cfg.map fun e =>
    match e.2 with
    | CfgEntry.fixed v => (e.1, CfgEntry.fixed v)
    | CfgEntry.tunable hname d =>
      match hp.lookup hname with
      | some v => (e.1, CfgEntry.fixed v)
      | none => (e.1, CfgEntry.tunable hname d)

/-- A recommender model instance: carries only the configuration it was
built from (weights are freshly initialized at construction, so the
configuration determines the instance). -/
structure Model where
  config : ModelConfig
deriving DecidableEq, Repr

/-- Modelled from the spec: the model constructor spec §4.4 intends
`run_trial` to apply ("instantiates a new model instance from that
configuration").  In the committed `tuner.py` the bare name `Recommender`
(line 231) is bound by nothing — line 28 imports only `CTRRecommender` and
`CFRecommender` — which `tuner_module_recommender` below records; this
definition serves only to state what the method body would do were the
name bound. -/
def Recommender (cfg : ModelConfig) : Model :=
  { config := cfg }

/-- Result of resolving the bare name `Recommender` in the `tuner.py`
module namespace: line 28 imports only `CTRRecommender` and
`CFRecommender`, and no other statement binds `Recommender`, so the lookup
at line 231 fails (`none`; using it raises a Python `NameError`). -/
def tuner_module_recommender : Option (ModelConfig → Model) := none

/-- The `self.config` dict that `run_trial` indexes with "ModelOption"
(tuner.py line 230) and that `get_scores` passes whole to `train`
(line 236). -/
structure PipeConfig where
  model_option : ModelConfig
deriving DecidableEq, Repr

/-- The instance attributes `run_trial`/`get_scores` read: `self.config`
(lines 230, 236) and `self.train_X`/`self.train_y`/`self.val_X`/
`self.val_y` (line 236).  Each is an `Option` because a Python attribute
may never have been assigned, in which case reading it raises
`AttributeError`. -/
structure PipeTunerAttrs where
  config : Option PipeConfig
  train_X : Option (List Int)
  train_y : Option (List Int)
  val_X : Option (List Int)
  val_y : Option (List Int)
deriving DecidableEq, Repr

/-- Attribute state of a `PipeTuner` as the committed `__init__`
(tuner.py lines 217-227) leaves it: only `_pipe` and `context` are
assigned; the assignments of the train/validation splits exist only as
comments (lines 224-227) and `config` is assigned nowhere, so every
attribute that `run_trial` and `get_scores` read is absent. -/
def committed_pipe_attrs : PipeTunerAttrs :=
  { config := none, train_X := none, train_y := none,
    val_X := none, val_y := none }

/-- Failures the Python method raises before reaching the Oracle: reading
a never-assigned attribute (`AttributeError`) or using an unbound name
(`NameError`). -/
inductive PyError where
  | attribute_error (attr : String)
  | name_error (hname : String)
deriving DecidableEq, Repr

/-- The external training collaborator, spec §6: `model.train(train_X,
train_y, val_X, val_y, config) -> (history, validation_loss)`
(`autorecsys.pipeline.recommender` is not under `src/`).  The history is
opaque; the validation loss is a list of output values so that evaluations
with one or with several scoring outputs are both expressible. -/
abbrev TrainFn := Model → List Int → List Int → List Int → List Int → PipeConfig → Nat × List Int

/-- Embedding of `PipeTuner.get_scores` (tuner.py lines 235-237):
evaluates `model.train(self.train_X, self.train_y, self.val_X, self.val_y,
self.config)` — the attribute reads happening left to right, the first
never-assigned one raising `AttributeError` — and wraps the resulting
validation loss as the single metrics entry `{"mse": val_loss}`. -/
def get_scores (train : TrainFn) (s : PipeTunerAttrs) (model : Model) :
    Except PyError (List (String × List Int)) :=
  match s.train_X with
  | none => Except.error (PyError.attribute_error "train_X")
  | some tX =>
    match s.train_y with
    | none => Except.error (PyError.attribute_error "train_y")
    | some ty =>
      match s.val_X with
      | none => Except.error (PyError.attribute_error "val_X")
      | some vX =>
        match s.val_y with
        | none => Except.error (PyError.attribute_error "val_y")
        | some vy =>
          match s.config with
          | none => Except.error (PyError.attribute_error "config")
          | some cfg =>
            let r := train model tX ty vX vy cfg
            Except.ok [("mse", r.2)]

/-- Observable Oracle calls made by `PipeTuner.run_trial`. -/
inductive PipeEvent where
  | update_trial (trial_id : Nat) (metrics : List (String × List Int))
deriving DecidableEq, Repr

/-- Embedding of `PipeTuner.run_trial` (tuner.py lines 229-233), statement
by statement as committed.  Line 230 reads `self.config` — raising
`AttributeError` when it was never assigned — and substitutes the trial's
sampled hyperparameters into its "ModelOption" entry; line 231 resolves
the bare name `Recommender` in the module namespace — raising `NameError`
when unbound — and applies it to the new configuration; line 232 scores
via `get_scores`; line 233 reports the metrics through
`oracle.update_trial`.  On success the embedding also exposes the
constructed model (the Python method returns `None`); no statement between
scoring and the Oracle call inspects how many outputs the evaluation
produced. -/
def run_trial (recommender : Option (ModelConfig → Model)) (train : TrainFn)
    (s : PipeTunerAttrs) (trial : Trial) :
    Except PyError (Model × List PipeEvent) :=
  match s.config with
  | none => Except.error (PyError.attribute_error "config")
  | some cfg =>
    let new_model_config := set_tunable_hps cfg.model_option trial.hyperparameters
    match recommender with
    | none => Except.error (PyError.name_error "Recommender")
    | some recommender_fn =>
      let new_model := recommender_fn new_model_config
      match get_scores train s new_model with
      | Except.error e => Except.error e
      | Except.ok scores =>
        Except.ok (new_model, [PipeEvent.update_trial trial.trial_id scores])

/- ---------------------------------------------------------------------
Construction (`BaseTuner.__init__`, tuner.py lines 65-96;
`PipeTuner.__init__`, lines 217-222) with its filesystem side effects,
and tuner-state persistence (lines 160-170).
--------------------------------------------------------------------- -/

/-- The structured key-value tuner state that round-trips through
`get_state`/`set_state` (spec §6). -/
abbrev TunerState := List (String × String)

/-- Embedding of `os.path.join` as used by `tuner.py` (relative paths only). -/
def os_path_join (a b : String) : String := a ++ "/" ++ b

/-- The filesystem as `tuner.py` observes it: existing directories, and
tuner-state files with their stored contents. -/
structure FS where
  dirs : List String
  files : List (String × TunerState)
deriving DecidableEq, Repr

/-- Filesystem and Oracle side effects observable during construction. -/
inductive InitEvent where
  | create_dir (path : String)
  | rmtree_dir (path : String)
  | set_project_dir (dir pname : String)
  | get_space_call
  | update_space_call
  | reload_call (path : String)
deriving DecidableEq, Repr

/-- The two construction-time validation failures: `ValueError` for an
oracle that is not an `Oracle` instance (tuner.py lines 77-79) and
`TypeError` for a model that is neither a `CFRecommender` nor a
`CTRRecommender` (lines 219-220). -/
inductive InitError where
  | oracle_value_error
  | model_type_error
deriving DecidableEq, Repr

/-- Modelled from the spec: `create_directory` from
`autorecsys.utils.common` (not under `src/`); spec §4.2: "directories are
created lazily and idempotently on first access" (create-if-absent).
Returns the updated filesystem and the emitted events. -/
def create_directory (fs : FS) (path : String) : FS × List InitEvent :=
  if path ∈ fs.dirs then (fs, [])
  else ({ fs with dirs := path :: fs.dirs }, [InitEvent.create_dir path])

/-- The `project_dir` property (tuner.py lines 172-178): joins
`directory`/`project_name` and runs `create_directory` on the result before
returning it. -/
def project_dir_access (fs : FS) (directory project_name : String) :
    String × FS × List InitEvent :=
  let dirname := os_path_join directory project_name
  let p := create_directory fs dirname
  (dirname, p.1, p.2)

/-- Embedding of `_get_tuner_fname` (tuner.py lines 187-190): accesses the `project_dir`
property (creating the directory) and joins `tuner_<tuner_id>.json`. -/
def get_tuner_fname (fs : FS) (directory project_name : String) (tuner_id : Nat) :
    String × FS × List InitEvent :=
  let p := project_dir_access fs directory project_name
  (os_path_join p.1 ("tuner_" ++ toString tuner_id ++ ".json"), p.2.1, p.2.2)

/-- Embedding of `shutil.rmtree` (tuner.py line 75): removes the directory and every
directory and file underneath it. -/
def rmtree (fs : FS) (path : String) : FS :=
  { dirs := fs.dirs.filter fun d => !(d == path || d.startsWith (path ++ "/")),
    files := fs.files.filter fun f => !(f.1.startsWith (path ++ "/")) }

/-- Embedding of `BaseTuner.get_state` (tuner.py lines 160-161): returns the empty
dict. -/
def base_get_state : TunerState := []

/-- Embedding of `BaseTuner.save` (tuner.py lines 166-167).  Modelled from the spec for
the inherited `Stateful.save` (`autorecsys/searcher/core/trial.py`, not
under `src/`): spec §6 says the per-tuner file holds the tuner state and
"must round-trip through `get_state`/`set_state`"; so `save` serializes
`get_state()` to `_get_tuner_fname()`. -/
def tuner_save (fs : FS) (directory project_name : String) (tuner_id : Nat) :
    FS × List InitEvent :=
  let p := get_tuner_fname fs directory project_name tuner_id
  ({ p.2.1 with
      files := (p.1, base_get_state) :: p.2.1.files.filter fun f => f.1 != p.1 },
   p.2.2)

/-- The outcome of running a constructor: the events it performed (in
order), the resulting filesystem, the validation error it raised (if any),
and the state that `reload` passed to `set_state` (if a reload happened;
`BaseTuner.set_state`, tuner.py lines 163-164, then discards it). -/
structure InitResult where
  events : List InitEvent
  fs : FS
  error : Option InitError
  reloaded : Option TunerState
deriving DecidableEq, Repr

/-- Embedding of `BaseTuner.__init__` (tuner.py lines 65-96), step by step:
`directory`/`project_name` defaults (lines 72-73); `if overwrite and
os.path.exists(self.project_dir): shutil.rmtree(...)` (lines 74-75), where
evaluating the `project_dir` property itself creates the directory if
absent, so the `exists` test is then necessarily true; the oracle
`isinstance` check raising `ValueError` (lines 77-79);
`oracle.set_project_dir` (line 81); `get_space` then `update_space`
(lines 90-91); and, when not overwriting, the `_get_tuner_fname()`
existence test (which again accesses `project_dir`) followed by `reload()`
when the state file exists (lines 93-96).  `oracle_is_oracle` models the
`isinstance(oracle, oracle_module.Oracle)` test. -/
def base_tuner_init (oracle_is_oracle : Bool) (directory project_name : Option String)
    (tuner_id : Option Nat) (overwrite : Bool) (fs : FS) : InitResult :=
  let dir := directory.getD "."
  let pname := project_name.getD "untitled_project"
  let step1 : FS × List InitEvent :=
    if overwrite then
      let p := project_dir_access fs dir pname
      if p.1 ∈ p.2.1.dirs then (rmtree p.2.1 p.1, p.2.2 ++ [InitEvent.rmtree_dir p.1])
      else (p.2.1, p.2.2)
    else (fs, [])
  if ¬oracle_is_oracle then
    { events := step1.2, fs := step1.1,
      error := some InitError.oracle_value_error, reloaded := none }
  else
    let tid := tuner_id.getD 0
    let evs := step1.2 ++ [InitEvent.set_project_dir dir pname,
                           InitEvent.get_space_call, InitEvent.update_space_call]
    if ¬overwrite then
      let p := get_tuner_fname step1.1 dir pname tid
      match p.2.1.files.lookup p.1 with
      | some st =>
        { events := evs ++ p.2.2 ++ [InitEvent.reload_call p.1], fs := p.2.1,
          error := none, reloaded := some st }
      | none =>
        { events := evs ++ p.2.2, fs := p.2.1, error := none, reloaded := none }
    else
      { events := evs, fs := step1.1, error := none, reloaded := none }

/-- Embedding of `PipeTuner.__init__` (tuner.py lines 217-222): runs the full
`BaseTuner.__init__` first; only if that returns does it check the model
against `CFRecommender`/`CTRRecommender`, raising `TypeError` otherwise.
`model_is_recommender` models the two `isinstance` tests of line 219. -/
def pipe_tuner_init (oracle_is_oracle model_is_recommender : Bool)
    (directory project_name : Option String) (tuner_id : Option Nat)
    (overwrite : Bool) (fs : FS) : InitResult :=
  let r := base_tuner_init oracle_is_oracle directory project_name tuner_id overwrite fs
  if r.error.isSome then r
  else if ¬model_is_recommender then { r with error := some InitError.model_type_error }
  else r

/-- Embedding of `BaseTuner.get_best_models` (tuner.py lines 192-206): asks the Oracle
for the best trials and maps the `load_model` hook over them. -/
def get_best_models {α : Type} (oracle_get_best_trials : Nat → List Trial)
    (load_model : Trial → α) (num_models : Nat) : List α :=
  let best_trials := oracle_get_best_trials num_models
  let models := best_trials.map load_model
  models

/-- Stream for the C2 witness: one `IDLE` poll, then `STOPPED` forever. -/
def c2Stream : Nat → Trial := fun n =>
  if n = 0 then { trial_id := 0, hyperparameters := [], status := TrialStatus.IDLE }
  else { trial_id := 0, hyperparameters := [], status := TrialStatus.STOPPED }

/-- The n-th `RUNNING` trial of the C6 scenario. -/
def c6Trial (n : Nat) : Trial :=
  { trial_id := n, hyperparameters := [("lr", Int.ofNat n)], status := TrialStatus.RUNNING }

/-- The C6 scenario Oracle: yields 3 `RUNNING` trials, then `STOPPED`. -/
def c6Stream : Nat → Trial := fun n =>
  if n < 3 then c6Trial n
  else { trial_id := 3, hyperparameters := [], status := TrialStatus.STOPPED }

/-- Stream for the C9 witness: a `COMPLETED`-status trial, then `STOPPED`. -/
def c9Stream : Nat → Trial := fun n =>
  if n = 0 then { trial_id := 7, hyperparameters := [], status := TrialStatus.COMPLETED }
  else { trial_id := 8, hyperparameters := [], status := TrialStatus.STOPPED }

/-- Bool test for a reload event, used to count reloads in a trace. -/
def isReloadEvent : InitEvent → Bool
  | InitEvent.reload_call _ => true
  | _ => false

/-- Bool test for a directory-creation event. -/
def isCreateDirEvent : InitEvent → Bool
  | InitEvent.create_dir _ => true
  | _ => false

/-- Bool test for a directory-removal event. -/
def isRmtreeEvent : InitEvent → Bool
  | InitEvent.rmtree_dir _ => true
  | _ => false

/- ---------------------------------------------------------------------
Lemmas and claim theorems.
--------------------------------------------------------------------- -/

/-- Unfolding equation for one iteration of the search loop. -/
lemma searchLoop_succ (trials : Nat → Trial) (k fuel : Nat) :
    searchLoop trials k (fuel + 1) =
      if (trials k).status = TrialStatus.STOPPED then some []
      else if (trials k).status = TrialStatus.IDLE then searchLoop trials (k + 1) fuel
      else
        match searchLoop trials (k + 1) fuel with
        | none => none
        | some rest => some (trials k :: rest) := rfl

/-- One loop iteration preserves successful termination: if the search
starting from call `k + 1` terminates within `fuel` iterations, the search
starting from call `k` terminates within `fuel + 1`. -/
lemma searchLoop_isSome_step (trials : Nat → Trial) (k fuel : Nat)
    (h : (searchLoop trials (k + 1) fuel).isSome) :
    (searchLoop trials k (fuel + 1)).isSome := by
  unfold searchLoop
  by_cases hs : (trials k).status = TrialStatus.STOPPED
  · simp [hs]
  · by_cases hi : (trials k).status = TrialStatus.IDLE
    · simp [hs, hi, h]
    · simp only [hs, hi, if_false]
      cases hv : searchLoop trials (k + 1) fuel with
      | none => rw [hv] at h; simp at h
      | some rest => simp

/-- Shifting the start index down by `m` costs at most `m` extra fuel. -/
lemma searchLoop_isSome_shift (trials : Nat → Trial) (m : Nat) :
    ∀ k fuel, (searchLoop trials (k + m) fuel).isSome →
      (searchLoop trials k (fuel + m)).isSome := by
  induction m with
  | zero => intro k fuel h; simpa using h
  | succ m ih =>
    intro k fuel h
    have h1 : (searchLoop trials (k + m) (fuel + 1)).isSome := by
      apply searchLoop_isSome_step
      have : k + m + 1 = k + (m + 1) := by omega
      rw [this]
      exact h
    have h2 := ih k (fuel + 1) h1
    have : fuel + 1 + m = fuel + (m + 1) := by omega
    rw [this] at h2
    exact h2

/-- A search run that terminates consumed a `STOPPED` trial. -/
lemma searchLoop_isSome_stopped (trials : Nat → Trial) :
    ∀ fuel k, (searchLoop trials k fuel).isSome →
      ∃ n, (trials n).status = TrialStatus.STOPPED := by
  intro fuel
  induction fuel with
  | zero => intro k h; simp [searchLoop] at h
  | succ fuel ih =>
    intro k h
    unfold searchLoop at h
    by_cases hs : (trials k).status = TrialStatus.STOPPED
    · exact ⟨k, hs⟩
    · by_cases hi : (trials k).status = TrialStatus.IDLE
      · simp only [hs, hi, if_false, if_true] at h
        exact ih (k + 1) h
      · simp only [hs, hi, if_false] at h
        cases hv : searchLoop trials (k + 1) fuel with
        | none => rw [hv] at h; simp at h
        | some rest => exact ih (k + 1) (by simp [hv])

/-- C1: `on_trial_end` performs exactly five collaborator calls in this
fixed order: (1) `Oracle.end_trial` reporting the trial `COMPLETED`,
(2) `save_weights` on the trial's artifact, (3) `Oracle.update_space` with
the trial's hyperparameters, (4) `Display.on_trial_end`, (5) `save` of the
tuner-level state — the state save being the last step. -/
theorem C1_on_trial_end_order (trial : Trial) :
    on_trial_end trial =
      [TunerEvent.end_trial trial.trial_id TrialStatus.COMPLETED,
       TunerEvent.save_weights trial.trial_id,
       TunerEvent.update_space trial.hyperparameters,
       TunerEvent.display_trial_end trial.trial_id,
       TunerEvent.save_state]
    ∧ (on_trial_end trial).length = 5
    ∧ (on_trial_end trial).getLast? = some TunerEvent.save_state :=
  ⟨rfl, rfl, rfl⟩

/-- C2: `search()` terminates iff the Oracle eventually returns a trial
with status `STOPPED`; with only `IDLE`/`RUNNING` trials no amount of fuel
makes the loop return.  And on an `IDLE` status the iteration is exactly a
retry at the next Oracle call: it contributes no dispatched trial and hence
no side effects. -/
theorem C2_search_termination (trials : Nat → Trial) :
    ((∃ fuel, (searchLoop trials 0 fuel).isSome) ↔
      (∃ n, (trials n).status = TrialStatus.STOPPED))
    ∧ (∀ k fuel, (trials k).status = TrialStatus.IDLE →
        searchLoop trials k (fuel + 1) = searchLoop trials (k + 1) fuel) := by
  constructor
  · constructor
    · rintro ⟨fuel, h⟩
      exact searchLoop_isSome_stopped trials fuel 0 h
    · rintro ⟨n, hn⟩
      refine ⟨1 + n, ?_⟩
      have hbase : (searchLoop trials (0 + n) 1).isSome := by
        unfold searchLoop
        simp [hn]
      exact searchLoop_isSome_shift trials n 0 1 hbase
  · intro k fuel hidle
    rw [searchLoop_succ]
    simp [hidle]

/-- Witness for C2 at the concrete stream `c2Stream` (IDLE then STOPPED):
the search terminates, and the IDLE step at call 0 is a pure retry. -/
theorem C2_search_termination_witness :
    (∃ fuel, (searchLoop c2Stream 0 fuel).isSome) ∧
      searchLoop c2Stream 0 2 = searchLoop c2Stream 1 1 := by
  have h := C2_search_termination c2Stream
  exact ⟨h.1.mpr ⟨1, by decide⟩, h.2 0 1 (by decide)⟩

/-- C6: with an Oracle yielding 3 `RUNNING` trials then `STOPPED`, the
search loop terminates and dispatches exactly those 3 trials, in order —
each dispatched trial is passed to `run_trial` and then `on_trial_end`, so
`on_trial_end` is called exactly 3 times before the loop returns. -/
theorem C6_three_running_then_stopped :
    searchLoop c6Stream 0 4 = some [c6Trial 0, c6Trial 1, c6Trial 2]
    ∧ (searchLoop c6Stream 0 4).isSome = true := by
  refine ⟨by decide, by decide⟩

/-- C9: the loop dispatches by exclusion — a trial whose status is neither
`STOPPED` nor `IDLE` (so `RUNNING` or `COMPLETED`) is dispatched to
`run_trial` and `on_trial_end`; exactly a `STOPPED` status ends the loop;
exactly an `IDLE` status is skipped. -/
theorem C9_dispatch_by_exclusion (trials : Nat → Trial) (k fuel : Nat) :
    ((trials k).status ≠ TrialStatus.STOPPED → (trials k).status ≠ TrialStatus.IDLE →
      searchLoop trials k (fuel + 1) =
        (searchLoop trials (k + 1) fuel).map fun rest => trials k :: rest)
    ∧ ((trials k).status = TrialStatus.STOPPED →
        searchLoop trials k (fuel + 1) = some [])
    ∧ ((trials k).status = TrialStatus.IDLE →
        searchLoop trials k (fuel + 1) = searchLoop trials (k + 1) fuel) := by
  refine ⟨?_, ?_, ?_⟩
  · intro hs hi
    rw [searchLoop_succ, if_neg hs, if_neg hi]
    cases searchLoop trials (k + 1) fuel <;> simp
  · intro hs
    rw [searchLoop_succ]
    simp [hs]
  · intro hi
    rw [searchLoop_succ]
    simp [hi]

/-- Witness for C9: a `COMPLETED`-status trial (neither STOPPED nor IDLE)
is dispatched by the loop. -/
theorem C9_dispatch_by_exclusion_witness :
    searchLoop c9Stream 0 2 =
      some [{ trial_id := 7, hyperparameters := [], status := TrialStatus.COMPLETED }] := by
  have h := (C9_dispatch_by_exclusion c9Stream 0 1).1 (by decide) (by decide)
  rw [h]
  decide

/-- C7: `get_best_models(n)` is exactly `load_model` mapped over
`Oracle.get_best_trials(n)`: same length (so exactly as many models as the
Oracle returns trials) and, position by position, the model loaded from the
trial at that rank — the tuner never reorders. -/
theorem C7_get_best_models (α : Type) (oracle_get_best_trials : Nat → List Trial)
    (load_model : Trial → α) (num_models : Nat) :
    get_best_models oracle_get_best_trials load_model num_models
        = (oracle_get_best_trials num_models).map load_model
    ∧ (get_best_models oracle_get_best_trials load_model num_models).length
        = (oracle_get_best_trials num_models).length
    ∧ ∀ i : Nat, (get_best_models oracle_get_best_trials load_model num_models)[i]?
        = ((oracle_get_best_trials num_models)[i]?).map load_model := by
  refine ⟨rfl, by simp [get_best_models], fun i => by simp [get_best_models]⟩

/-- Trial used in the C5 evidence: a sampled hyperparameter is present,
so only the method's own failures can stop the claimed pipeline. -/
def c5Trial : Trial :=
  { trial_id := 1, hyperparameters := [("units", 16)], status := TrialStatus.RUNNING }

/-- Training stub used in the C5 evidence: one scoring output. -/
def c5Train : TrainFn := fun _ _ _ _ _ _ => (0, [5])

/-- C5 (code-bug evidence): the committed `run_trial` can never materialize
a configuration, instantiate a model, train it, or reach
`Oracle.update_trial`: for every training collaborator and every trial it
raises `AttributeError` at its first statement (line 230 reads
`self.config`, which `__init__` never assigns), and even with `config`
assigned it raises `NameError` at line 231 because `Recommender` is
unbound in the module — so no Oracle call and no model construction ever
happens, against the claimed (and spec-intended) behavior. -/
theorem C5_run_trial_always_raises :
    (∀ (train : TrainFn) (trial : Trial),
        run_trial tuner_module_recommender train committed_pipe_attrs trial
          = Except.error (PyError.attribute_error "config"))
    ∧ (∀ (cfg : PipeConfig) (train : TrainFn) (trial : Trial),
        run_trial tuner_module_recommender train
            { committed_pipe_attrs with config := some cfg } trial
          = Except.error (PyError.name_error "Recommender"))
    ∧ run_trial tuner_module_recommender c5Train committed_pipe_attrs c5Trial
        = Except.error (PyError.attribute_error "config") :=
  ⟨fun _ _ => rfl, fun _ _ _ => rfl, rfl⟩

/-- Training stub of the C3 failing input: the trial evaluation yields two
scoring outputs (validation loss `[3, 4]`). -/
def c3MultiOutputTrain : TrainFn := fun _ _ _ _ _ _ => (0, [3, 4])

/-- Trial of the C3 failing input. -/
def c3Trial : Trial :=
  { trial_id := 5, hyperparameters := [], status := TrialStatus.RUNNING }

/-- Counterfactual attribute state with every attribute assigned, used to
isolate the absence of the multi-output guard from the unrelated
attribute and name failures of the committed state. -/
def c3AssignedAttrs : PipeTunerAttrs :=
  { config := some { model_option := [] }, train_X := some [],
    train_y := some [], val_X := some [], val_y := some [] }

/-- C3 (code-bug evidence): at the failing input the committed `run_trial`
raises `AttributeError` at line 230, before any evaluation or Oracle call,
so the failure that occurs is not the claimed multi-output configuration
error; and the method body contains no such guard at all — in the
counterfactual where the attributes are assigned and `Recommender`
resolves, the two-output evaluation flows silently into
`Oracle.update_trial` as `{"mse": [3, 4]}` (the `len != 1` check exists
only in the commented-out `run_trial`, tuner.py lines 248-264). -/
theorem C3_no_multi_output_guard :
    run_trial tuner_module_recommender c3MultiOutputTrain committed_pipe_attrs c3Trial
      = Except.error (PyError.attribute_error "config")
    ∧ run_trial (some Recommender) c3MultiOutputTrain c3AssignedAttrs c3Trial
      = Except.ok (Recommender [], [PipeEvent.update_trial 5 [("mse", [3, 4])]]) :=
  ⟨rfl, rfl⟩

/-- The function `create_directory` guarantees the directory exists afterwards. -/
lemma create_directory_mem (fs : FS) (path : String) :
    path ∈ (create_directory fs path).1.dirs := by
  unfold create_directory
  by_cases h : path ∈ fs.dirs <;> simp [h]

/-- The function `create_directory` never touches files. -/
lemma create_directory_files (fs : FS) (path : String) :
    (create_directory fs path).1.files = fs.files := by
  unfold create_directory
  by_cases h : path ∈ fs.dirs <;> simp [h]

/-- The function `create_directory` emits either nothing or one creation event. -/
lemma create_directory_events (fs : FS) (path : String) :
    (create_directory fs path).2 = []
    ∨ (create_directory fs path).2 = [InitEvent.create_dir path] := by
  unfold create_directory
  by_cases h : path ∈ fs.dirs <;> simp [h]

/-- The function `create_directory` on an existing directory is a no-op. -/
lemma create_directory_of_mem (fs : FS) (path : String) (h : path ∈ fs.dirs) :
    create_directory fs path = (fs, []) := by
  unfold create_directory
  simp [h]

/-- Evaluation of `BaseTuner.__init__` with a non-Oracle argument and
`overwrite=False`: the `ValueError` is raised with no side effect at all. -/
lemma base_init_bad_oracle_no_overwrite (d p : Option String) (t : Option Nat) (fs : FS) :
    base_tuner_init false d p t false fs
      = { events := [], fs := fs,
          error := some InitError.oracle_value_error, reloaded := none } := by
  unfold base_tuner_init
  simp

/-- Evaluation of `BaseTuner.__init__` with a non-Oracle argument and
`overwrite=True`: the project directory is created-if-absent and then
removed before the `ValueError` is raised. -/
lemma base_init_bad_oracle_overwrite (d p : Option String) (t : Option Nat) (fs : FS) :
    base_tuner_init false d p t true fs
      = { events := (create_directory fs (os_path_join (d.getD ".")
              (p.getD "untitled_project"))).2
            ++ [InitEvent.rmtree_dir (os_path_join (d.getD ".")
              (p.getD "untitled_project"))],
          fs := rmtree (create_directory fs (os_path_join (d.getD ".")
              (p.getD "untitled_project"))).1
            (os_path_join (d.getD ".") (p.getD "untitled_project")),
          error := some InitError.oracle_value_error, reloaded := none } := by
  have hmem := create_directory_mem fs (os_path_join (d.getD ".") (p.getD "untitled_project"))
  simp [base_tuner_init, project_dir_access, hmem]

/-- Evaluation of `BaseTuner.__init__` with a valid Oracle and
`overwrite=True`. -/
lemma base_init_ok_overwrite (d p : Option String) (t : Option Nat) (fs : FS) :
    base_tuner_init true d p t true fs
      = { events := (create_directory fs (os_path_join (d.getD ".")
              (p.getD "untitled_project"))).2
            ++ [InitEvent.rmtree_dir (os_path_join (d.getD ".")
                  (p.getD "untitled_project")),
                InitEvent.set_project_dir (d.getD ".") (p.getD "untitled_project"),
                InitEvent.get_space_call, InitEvent.update_space_call],
          fs := rmtree (create_directory fs (os_path_join (d.getD ".")
              (p.getD "untitled_project"))).1
            (os_path_join (d.getD ".") (p.getD "untitled_project")),
          error := none, reloaded := none } := by
  have hmem := create_directory_mem fs (os_path_join (d.getD ".") (p.getD "untitled_project"))
  simp [base_tuner_init, project_dir_access, hmem]

/-- Evaluation of `BaseTuner.__init__` with a valid Oracle and
`overwrite=False`: the space is populated and the tuner state file, if
present, is reloaded. -/
lemma base_init_ok_no_overwrite (d p : Option String) (t : Option Nat) (fs : FS) :
    base_tuner_init true d p t false fs
      = { events := [InitEvent.set_project_dir (d.getD ".") (p.getD "untitled_project"),
                     InitEvent.get_space_call, InitEvent.update_space_call]
            ++ (create_directory fs (os_path_join (d.getD ".")
                  (p.getD "untitled_project"))).2
            ++ (match fs.files.lookup (os_path_join (os_path_join (d.getD ".")
                  (p.getD "untitled_project"))
                  ("tuner_" ++ toString (t.getD 0) ++ ".json")) with
                | some _ => [InitEvent.reload_call (os_path_join (os_path_join (d.getD ".")
                    (p.getD "untitled_project"))
                    ("tuner_" ++ toString (t.getD 0) ++ ".json"))]
                | none => []),
          fs := (create_directory fs (os_path_join (d.getD ".")
              (p.getD "untitled_project"))).1,
          error := none,
          reloaded := fs.files.lookup (os_path_join (os_path_join (d.getD ".")
              (p.getD "untitled_project"))
              ("tuner_" ++ toString (t.getD 0) ++ ".json")) } := by
  have hfiles := create_directory_files fs (os_path_join (d.getD ".") (p.getD "untitled_project"))
  cases hv : fs.files.lookup (os_path_join (os_path_join (d.getD ".")
      (p.getD "untitled_project")) ("tuner_" ++ toString (t.getD 0) ++ ".json")) with
  | none =>
    simp [base_tuner_init, get_tuner_fname, project_dir_access, hfiles, hv]
  | some st =>
    simp [base_tuner_init, get_tuner_fname, project_dir_access, hfiles, hv]

/-- C10: constructing a tuner with a valid Oracle — whatever the value of
`overwrite` — performs exactly one `get_space` immediately followed by
exactly one `update_space`, after the oracle type check succeeds (with an
invalid oracle neither call happens) and before any state reload; so the
Oracle's search space is (re)populated as a side effect of construction,
before any trial runs. -/
theorem C10_construction_populates_space (directory project_name : Option String)
    (tuner_id : Option Nat) (overwrite : Bool) (fs : FS) :
    (∃ pre post,
      (base_tuner_init true directory project_name tuner_id overwrite fs).events
        = pre ++ [InitEvent.get_space_call, InitEvent.update_space_call] ++ post
      ∧ pre.count InitEvent.get_space_call = 0
      ∧ post.count InitEvent.get_space_call = 0
      ∧ pre.count InitEvent.update_space_call = 0
      ∧ post.count InitEvent.update_space_call = 0
      ∧ pre.countP isReloadEvent = 0)
    ∧ (base_tuner_init false directory project_name tuner_id overwrite fs).events.count
        InitEvent.get_space_call = 0
    ∧ (base_tuner_init true directory project_name tuner_id overwrite fs).error = none := by
  cases overwrite with
  | true =>
    rw [base_init_ok_overwrite, base_init_bad_oracle_overwrite]
    rcases create_directory_events fs (os_path_join (directory.getD ".")
        (project_name.getD "untitled_project")) with hE | hE <;> rw [hE]
    · exact ⟨⟨[InitEvent.rmtree_dir (os_path_join (directory.getD ".")
          (project_name.getD "untitled_project")),
          InitEvent.set_project_dir (directory.getD ".") (project_name.getD "untitled_project")],
          [], rfl, by simp, by simp, by simp, by simp, by simp [isReloadEvent]⟩,
        by simp, rfl⟩
    · exact ⟨⟨[InitEvent.create_dir (os_path_join (directory.getD ".")
          (project_name.getD "untitled_project")),
          InitEvent.rmtree_dir (os_path_join (directory.getD ".")
          (project_name.getD "untitled_project")),
          InitEvent.set_project_dir (directory.getD ".") (project_name.getD "untitled_project")],
          [], rfl, by simp, by simp, by simp, by simp, by simp [isReloadEvent]⟩,
        by simp, rfl⟩
  | false =>
    rw [base_init_ok_no_overwrite, base_init_bad_oracle_no_overwrite]
    rcases create_directory_events fs (os_path_join (directory.getD ".")
        (project_name.getD "untitled_project")) with hE | hE <;> rw [hE] <;>
      cases hv : fs.files.lookup (os_path_join (os_path_join (directory.getD ".")
          (project_name.getD "untitled_project"))
          ("tuner_" ++ toString (tuner_id.getD 0) ++ ".json"))
    · exact ⟨⟨[InitEvent.set_project_dir (directory.getD ".")
          (project_name.getD "untitled_project")], [],
          rfl, by simp, by simp, by simp, by simp, by simp [isReloadEvent]⟩,
        by simp, rfl⟩
    · exact ⟨⟨[InitEvent.set_project_dir (directory.getD ".")
          (project_name.getD "untitled_project")],
          [InitEvent.reload_call (os_path_join (os_path_join (directory.getD ".")
            (project_name.getD "untitled_project"))
            ("tuner_" ++ toString (tuner_id.getD 0) ++ ".json"))],
          rfl, by simp, by simp, by simp, by simp, by simp [isReloadEvent]⟩,
        by simp, rfl⟩
    · exact ⟨⟨[InitEvent.set_project_dir (directory.getD ".")
          (project_name.getD "untitled_project")],
          [InitEvent.create_dir (os_path_join (directory.getD ".")
            (project_name.getD "untitled_project"))],
          rfl, by simp, by simp, by simp, by simp, by simp [isReloadEvent]⟩,
        by simp, rfl⟩
    · exact ⟨⟨[InitEvent.set_project_dir (directory.getD ".")
          (project_name.getD "untitled_project")],
          [InitEvent.create_dir (os_path_join (directory.getD ".")
            (project_name.getD "untitled_project")),
          InitEvent.reload_call (os_path_join (os_path_join (directory.getD ".")
            (project_name.getD "untitled_project"))
            ("tuner_" ++ toString (tuner_id.getD 0) ++ ".json"))],
          rfl, by simp, by simp, by simp, by simp, by simp [isReloadEvent]⟩,
        by simp, rfl⟩

/-- The empty filesystem of the C4 counterexample. -/
def c4FS : FS := { dirs := [], files := [] }

/-- C4 counterexample: constructing a `PipeTuner` with a valid Oracle but a
model that is not a recommender (`overwrite=False`, empty filesystem) does
raise the model `TypeError`, yet a directory was created during the very
construction that failed — refuting "fails fast ... before any directory is
created, deleted, or otherwise touched". -/
theorem C4_counterexample :
    (pipe_tuner_init true false (some "d") (some "p") none false c4FS).error
        = some InitError.model_type_error
    ∧ (pipe_tuner_init true false (some "d") (some "p") none false c4FS).events.countP
        isCreateDirEvent = 1 := by
  exact ⟨rfl, rfl⟩

/-- C4 as amended: (a) a `BaseTuner` constructed with an invalid oracle and
`overwrite=False` raises the descriptive error before any filesystem
operation (no events, filesystem untouched); (b) but with `overwrite=True`
the project directory is removed — after being created if absent — before
the oracle check, so the error arrives only after the deletion; (c) and the
`PipeTuner` model check runs only after the complete `BaseTuner`
construction, whose side effects (project-directory creation included) all
happen despite the model error. -/
theorem C4_amended_fail_fast (directory project_name : Option String)
    (tuner_id : Option Nat) (fs : FS) :
    ((base_tuner_init false directory project_name tuner_id false fs).error
        = some InitError.oracle_value_error
      ∧ (base_tuner_init false directory project_name tuner_id false fs).events = []
      ∧ (base_tuner_init false directory project_name tuner_id false fs).fs = fs)
    ∧ ((base_tuner_init false directory project_name tuner_id true fs).error
        = some InitError.oracle_value_error
      ∧ (base_tuner_init false directory project_name tuner_id true fs).events.countP
          isRmtreeEvent = 1)
    ∧ ∀ ow : Bool,
        (pipe_tuner_init true false directory project_name tuner_id ow fs).error
          = some InitError.model_type_error
        ∧ (pipe_tuner_init true false directory project_name tuner_id ow fs).events
          = (base_tuner_init true directory project_name tuner_id ow fs).events := by
  refine ⟨?_, ?_, ?_⟩
  · rw [base_init_bad_oracle_no_overwrite]
    exact ⟨rfl, rfl, rfl⟩
  · rw [base_init_bad_oracle_overwrite]
    rcases create_directory_events fs (os_path_join (directory.getD ".")
        (project_name.getD "untitled_project")) with hE | hE <;> rw [hE] <;>
      exact ⟨rfl, by simp [isRmtreeEvent]⟩
  · intro ow
    cases ow with
    | true =>
      unfold pipe_tuner_init
      rw [base_init_ok_overwrite]
      exact ⟨rfl, rfl⟩
    | false =>
      unfold pipe_tuner_init
      rw [base_init_ok_no_overwrite]
      exact ⟨rfl, rfl⟩

/-- After `save`, the per-tuner state file holds exactly what `get_state`
returned, and the project directory exists. -/
lemma tuner_save_files (fs : FS) (dir pname : String) (tid : Nat) :
    (tuner_save fs dir pname tid).1.files.lookup
        (os_path_join (os_path_join dir pname) ("tuner_" ++ toString tid ++ ".json"))
      = some base_get_state
    ∧ os_path_join dir pname ∈ (tuner_save fs dir pname tid).1.dirs := by
  constructor
  · simp [tuner_save, get_tuner_fname, project_dir_access, List.lookup]
  · simpa [tuner_save, get_tuner_fname, project_dir_access]
      using create_directory_mem fs (os_path_join dir pname)

/-- C8: a save-then-reload round trip through the per-tuner state file.
Saving writes `get_state()` to `tuner_<tuner_id>.json`; constructing a
tuner with the same `directory`/`project_name` (and `tuner_id`) and
`overwrite=False` reloads during construction — before the search loop can
start — passing `set_state` exactly the state that `get_state` returned
when the prior tuner saved. -/
theorem C8_save_reload_roundtrip (dir pname : String) (tid : Nat) (fs : FS) :
    (base_tuner_init true (some dir) (some pname) (some tid) false
        (tuner_save fs dir pname tid).1).reloaded = some base_get_state
    ∧ (base_tuner_init true (some dir) (some pname) (some tid) false
        (tuner_save fs dir pname tid).1).events.countP isReloadEvent = 1
    ∧ (base_tuner_init true (some dir) (some pname) (some tid) false
        (tuner_save fs dir pname tid).1).error = none := by
  have hsave := tuner_save_files fs dir pname tid
  have hE := create_directory_of_mem (tuner_save fs dir pname tid).1
      (os_path_join dir pname) hsave.2
  rw [base_init_ok_no_overwrite]
  simp only [Option.getD_some, hE]
  rw [hsave.1]
  exact ⟨rfl, by simp [isReloadEvent], trivial⟩
